import Mathlib

/-!
Verification development for the Island-of-Storms cleaning pipeline.

This file gives a shallow embedding of the three data-cleaning scripts of the
repository:

* the clean_ibtracs_par_1950_2023.py script (PAR regional pipeline),
* the clean_ibtracs_par_1950_2023_landfall.py script (PH landfall pipeline),
* the merge_era5_jsons_to_csv.py script (climate-series merge).

Dataframes are embedded as lists of records, pandas column operations as list
operations, and the matplotlib point-in-polygon library call as the standard
even-odd (crossing number) containment test over exact rationals.
-/

namespace IOS

/-- A timestamp, abstracted as a calendar year plus an ordinal position within
the year; comparison is lexicographic, and the year component is what the
script's ISO_TIME.dt.year accessor extracts. -/
structure Time where
  year : Int
  sub : Nat
deriving DecidableEq, Repr

/-- Boolean lexicographic order on timestamps. -/
def Time.leB (a b : Time) : Bool :=
  decide (a.year < b.year) || (decide (a.year = b.year) && decide (a.sub ≤ b.sub))

/-- One raw CSV record restricted to the USE_COLUMNS subset of both IBTrACS
scripts; a none field is a value that pandas type coercion turned into NaN/NaT
(errors coerce to missing). NATURE is kept as a plain string. -/
structure RawRow where
  sid : Option String
  time : Option Time
  lat : Option Rat
  lon : Option Rat
  nature : String
  wind : Option Rat
deriving DecidableEq, Repr

/-- A row that survived the dropna step: SID, ISO_TIME, LAT, LON and the wind
column are all present (NATURE is not part of the dropna subset). -/
structure Row where
  sid : String
  time : Time
  lat : Rat
  lon : Rat
  nature : String
  wind : Rat
deriving DecidableEq, Repr

/-- The dropna test of both scripts: keep a raw row only when every column of
the subset SID, ISO_TIME, LAT, LON, wind parsed successfully. -/
def toValidRow (r : RawRow) : Option Row :=
  match r.sid, r.time, r.lat, r.lon, r.wind with
  | some s, some t, some la, some lo, some w =>
    some { sid := s, time := t, lat := la, lon := lo, nature := r.nature, wind := w }
  | _, _, _, _, _ => none

/-- dropna over the whole table. -/
def dropInvalid (raw : List RawRow) : List Row :=
  raw.filterMap toValidRow

/-- The year-range filter START_YEAR ≤ year ≤ END_YEAR of both scripts. -/
def yearInRange (r : Row) : Bool :=
  decide (1950 ≤ r.time.year) && decide (r.time.year ≤ 2023)

/-- The KEEP_NATURE set of both scripts (tropical systems only). -/
def KEEP_NATURE : List String := ["TD", "TS", "TY"]

/-- NATURE membership test used by the PAR script's tropical-only filter. -/
def natureKept (r : Row) : Bool :=
  decide (r.nature ∈ KEEP_NATURE)

/-! Geometry: even-odd point-in-polygon test, modelling the matplotlib
contains_points library call invoked by both IBTrACS scripts. -/

/-- One step of the crossing-number test: does the edge from (x1, y1) to
(x2, y2) cross the horizontal ray from (x, y) to the right. -/
def edgeCrosses (x y x1 y1 x2 y2 : Rat) : Bool :=
  (decide (y < y1) != decide (y < y2)) &&
    decide (x < x1 + (x2 - x1) * (y - y1) / (y2 - y1))

/-- Even-odd containment of the point (x, y) in a polygon given as its vertex
list (closing edge implicit), as computed by the library's crossing test. -/
def containsPoint (poly : List (Rat × Rat)) (x y : Rat) : Bool :=
  (List.zip poly (poly.drop 1 ++ poly.take 1)).foldl
    (fun acc e => acc != edgeCrosses x y e.1.1 e.1.2 e.2.1 e.2.2) false

/-- The hard-coded PAGASA PAR polygon of the PAR script, (lon, lat) pairs. -/
def PAR_POLYGON : List (Rat × Rat) :=
  [(115, 5), (115, 15), (120, 21), (120, 25), (135, 25), (135, 5)]

/-- Longitude normalization of the landfall script: values above 180 are
wrapped into the -180..180 range; everything else passes through. -/
def ensureLon180 (lon : Rat) : Rat :=
  if 180 < lon then lon - 360 else lon

/-- The point the PAR script feeds to its containment test for a given row:
the raw (LON, LAT) pair, with no longitude normalization. -/
def parTestPoint (r : Row) : Rat × Rat := (r.lon, r.lat)

/-- The point the landfall script feeds to its containment test for a given
row: the normalized (LON_180, LAT) pair. -/
def lfTestPoint (r : Row) : Rat × Rat := (ensureLon180 r.lon, r.lat)

/-! Generic list machinery shared by the pipelines: stable insertion sort,
first-occurrence uniqueness, keyed first-occurrence deduplication. -/

/-- Insert into a sorted list, keeping the inserted element before later equal
elements (stable). -/
def insertOrd (le : α → α → Bool) (a : α) : List α → List α
  | [] => [a]
  | b :: bs => if le a b then a :: b :: bs else b :: insertOrd le a bs

/-- Stable insertion sort by a boolean comparison. -/
def sortOrd (le : α → α → Bool) : List α → List α
  | [] => []
  | a :: as => insertOrd le a (sortOrd le as)

/-- Worker for first-occurrence uniqueness: drop elements already seen. -/
def firstUniqueGo [DecidableEq α] (seen : List α) : List α → List α
  | [] => []
  | x :: xs =>
    if x ∈ seen then firstUniqueGo seen xs else x :: firstUniqueGo (x :: seen) xs

/-- pandas-style unique: keep the first occurrence of each value, in order of
first appearance. -/
def firstUnique [DecidableEq α] (l : List α) : List α :=
  firstUniqueGo [] l

/-- Worker for keyed deduplication: drop rows whose key was already seen. -/
def dedupByGo [DecidableEq κ] (key : α → κ) (seen : List κ) : List α → List α
  | [] => []
  | x :: xs =>
    if key x ∈ seen then dedupByGo key seen xs
    else x :: dedupByGo key (key x :: seen) xs

/-- pandas drop_duplicates with keep first: one row per key, the earliest. -/
def dedupBy [DecidableEq κ] (key : α → κ) (l : List α) : List α :=
  dedupByGo key [] l

/-- Boolean strict string order (lexicographic), used for key sorting. -/
def strLt (a b : String) : Bool := decide (a < b)

/-- Boolean non-strict string order. -/
def sidLe (a b : String) : Bool := a == b || strLt a b

/-! The PAR regional pipeline (clean_ibtracs_par_1950_2023.py). -/

/-- A track row of the PAR pipeline: a cleaned row plus its in_par column. -/
structure PRow where
  sid : String
  time : Time
  lat : Rat
  lon : Rat
  nature : String
  wind : Rat
  inPar : Bool
deriving DecidableEq, Repr

/-- Attach the in_par column: containment of the raw (LON, LAT) point in the
PAR polygon. -/
def mkPRow (r : Row) : PRow :=
  { sid := r.sid, time := r.time, lat := r.lat, lon := r.lon, nature := r.nature,
    wind := r.wind,
    inPar := containsPoint PAR_POLYGON (parTestPoint r).1 (parTestPoint r).2 }

/-- Cleaning steps of the PAR script before geometry: dropna, year range,
tropical-nature filter, in that order. -/
def parCleanRows (raw : List RawRow) : List Row :=
  ((dropInvalid raw).filter yearInRange).filter natureKept

/-- The full PAR dataframe with its in_par column. -/
def parAllRows (raw : List RawRow) : List PRow :=
  (parCleanRows raw).map mkPRow

/-- par_storm_ids: unique SIDs with at least one in-PAR point. -/
def parStormIds (raw : List RawRow) : List String :=
  firstUnique (((parAllRows raw).filter (fun r => r.inPar)).map (fun r => r.sid))

/-- tracks_dataframe before deduplication: all rows of retained storms. -/
def parSelected (raw : List RawRow) : List PRow :=
  (parAllRows raw).filter (fun r => decide (r.sid ∈ parStormIds raw))

/-- The drop_duplicates key of the PAR script: (SID, ISO_TIME, LAT, LON). -/
def pKey (r : PRow) : String × Time × Rat × Rat := (r.sid, r.time, r.lat, r.lon)

/-- sort_values key (SID, ISO_TIME) as a boolean order on PAR track rows. -/
def pTrackLe (a b : PRow) : Bool :=
  if a.sid == b.sid then Time.leB a.time b.time else strLt a.sid b.sid

/-- The tracks CSV content of the PAR script: retained rows, deduplicated on
the key, sorted by (SID, ISO_TIME). -/
def parTracksOut (raw : List RawRow) : List PRow :=
  sortOrd pTrackLe (dedupBy pKey (parSelected raw))

/-- min of a timestamp column. -/
def minTimeFold (t : Time) (l : List Time) : Time :=
  l.foldl (fun a b => if Time.leB a b then a else b) t

/-- max of a timestamp column. -/
def maxTimeFold (t : Time) (l : List Time) : Time :=
  l.foldl (fun a b => if Time.leB a b then b else a) t

/-- max of a numeric column. -/
def maxRatFold (x : Rat) (l : List Rat) : Rat :=
  l.foldl max x

/-- min of an integer column. -/
def minIntFold (x : Int) (l : List Int) : Int :=
  l.foldl min x

/-- sum of a numeric column. -/
def sumRat (l : List Rat) : Rat :=
  l.foldl (fun a b => a + b) 0

/-- max of a possibly empty numeric column: NaN (missing) when empty. -/
def maxRatList : List Rat → Option Rat
  | [] => none
  | x :: xs => some (maxRatFold x xs)

/-- par_max_wind for one storm: the maximum wind over its in-PAR track rows,
missing when the storm has no in-PAR row (left-join miss). -/
def parMaxWind (s : String) (tracks : List PRow) : Option Rat :=
  maxRatList ((tracks.filter (fun r => r.sid == s && r.inPar)).map (fun r => r.wind))

/-- One storms-CSV record of the PAR script. -/
structure ParStorm where
  sid : String
  start_time : Time
  end_time : Time
  start_year : Int
  max_wind : Rat
  n_track_points : Nat
  mean_lat : Rat
  mean_lon : Rat
  par_max_wind : Option Rat
  peak_intensity : String
  par_peak_intensity : String
deriving DecidableEq, Repr

/-- The masked threshold comparison of the intensity-label assignments: a
missing wind compares false against every threshold, exactly as a pandas NaN
does in a >= mask. -/
def windGeB : Option Rat → Rat → Bool
  | none, _ => false
  | some w, c => decide (c ≤ w)

/-- The sequential label assignment of the scripts: start from the default
lowest class, then overwrite under each threshold mask in turn; a missing wind
never passes a mask, so the default survives. -/
def intensityChain (w : Option Rat) : String :=
  let l0 := "TD"
  let l1 := if windGeB w 34 then "TS" else l0
  let l2 := if windGeB w 64 then "TY" else l1
  if windGeB w 130 then "STY" else l2

/-- The classifier on a present wind value. -/
def intensityOfWind (w : Rat) : String :=
  intensityChain (some w)

/-- Numeric rank of an intensity label, for monotonicity statements. -/
def intensityRank (s : String) : Nat :=
  if s == "STY" then 3 else if s == "TY" then 2 else if s == "TS" then 1 else 0

/-- The label-assignment stage of the PAR script (lines assigning
peak_intensity and par_peak_intensity from max_wind and par_max_wind). -/
def assignParLabels (s : ParStorm) : ParStorm :=
  { s with peak_intensity := intensityChain (some s.max_wind),
           par_peak_intensity := intensityChain s.par_max_wind }

/-- groupby-SID aggregation of the PAR script for one storm id, followed by
the par_max_wind left join and the label assignments; none when the storm has
no track row. -/
def aggParStorm (s : String) (tracks : List PRow) : Option ParStorm :=
  match tracks.filter (fun r => r.sid == s) with
  | [] => none
  | r :: rs =>
    some (assignParLabels
      { sid := s
        start_time := minTimeFold r.time (rs.map (fun q => q.time))
        end_time := maxTimeFold r.time (rs.map (fun q => q.time))
        start_year := minIntFold r.time.year (rs.map (fun q => q.time.year))
        max_wind := maxRatFold r.wind (rs.map (fun q => q.wind))
        n_track_points := (r :: rs).length
        mean_lat := sumRat ((r :: rs).map (fun q => q.lat)) / ((r :: rs).length : Rat)
        mean_lon := sumRat ((r :: rs).map (fun q => q.lon)) / ((r :: rs).length : Rat)
        par_max_wind := parMaxWind s tracks
        peak_intensity := "TD"
        par_peak_intensity := "TD" })

/-- The groupby keys: unique SIDs of the track table, sorted ascending. -/
def groupSids (sids : List String) : List String :=
  sortOrd sidLe (firstUnique sids)

/-- sort_values key (start_year, SID) on summary rows. -/
def parStormLe (a b : ParStorm) : Bool :=
  if a.start_year = b.start_year then sidLe a.sid b.sid
  else decide (a.start_year ≤ b.start_year)

/-- The storms CSV content of the PAR script. -/
def parStormsOut (raw : List RawRow) : List ParStorm :=
  sortOrd parStormLe
    ((groupSids ((parTracksOut raw).map (fun r => r.sid))).filterMap
      (fun s => aggParStorm s (parTracksOut raw)))

/-! The PH landfall pipeline (clean_ibtracs_par_1950_2023_landfall.py). -/

/-- The landmass geometry: the exterior rings extracted from the GeoJSON, one
vertex list per polygon. The GeoJSON file is data, not code, so the geometry
is a parameter of the embedded pipeline. -/
abbrev Geometry := List (List (Rat × Rat))

/-- points_in_any_polygon: true when the point lies inside at least one of the
polygons. -/
def pointsInAnyPolygon (paths : Geometry) (x y : Rat) : Bool :=
  paths.any (fun p => containsPoint p x y)

/-- A track row of the landfall pipeline: a cleaned row plus its LON_180 and
on_ph_land columns. -/
structure LRow where
  sid : String
  time : Time
  lat : Rat
  lon : Rat
  nature : String
  wind : Rat
  lon180 : Rat
  onLand : Bool
deriving DecidableEq, Repr

/-- Attach the LON_180 and on_ph_land columns: the containment test runs on
the normalized (LON_180, LAT) point. -/
def mkLRow (geom : Geometry) (r : Row) : LRow :=
  { sid := r.sid, time := r.time, lat := r.lat, lon := r.lon, nature := r.nature,
    wind := r.wind,
    lon180 := ensureLon180 r.lon,
    onLand := pointsInAnyPolygon geom (lfTestPoint r).1 (lfTestPoint r).2 }

/-- Cleaning steps of the landfall script before geometry: dropna and the year
range filter only — no NATURE filter is applied. -/
def lfCleanRows (raw : List RawRow) : List Row :=
  (dropInvalid raw).filter yearInRange

/-- The full landfall dataframe with its derived columns. -/
def lfAllRows (geom : Geometry) (raw : List RawRow) : List LRow :=
  (lfCleanRows raw).map (mkLRow geom)

/-- landfall_storm_ids: unique SIDs with at least one on-land point. -/
def lfStormIds (geom : Geometry) (raw : List RawRow) : List String :=
  firstUnique (((lfAllRows geom raw).filter (fun r => r.onLand)).map (fun r => r.sid))

/-- tracks_df before deduplication: all rows of retained storms. -/
def lfSelected (geom : Geometry) (raw : List RawRow) : List LRow :=
  (lfAllRows geom raw).filter (fun r => decide (r.sid ∈ lfStormIds geom raw))

/-- The drop_duplicates key of the landfall script:
(SID, ISO_TIME, LAT, LON_180). -/
def lKey (r : LRow) : String × Time × Rat × Rat := (r.sid, r.time, r.lat, r.lon180)

/-- sort_values key (SID, ISO_TIME) as a boolean order on landfall rows. -/
def lTrackLe (a b : LRow) : Bool :=
  if a.sid == b.sid then Time.leB a.time b.time else strLt a.sid b.sid

/-- The tracks CSV content of the landfall script. -/
def lfTracksOut (geom : Geometry) (raw : List RawRow) : List LRow :=
  sortOrd lTrackLe (dedupBy lKey (lfSelected geom raw))

/-- lf_first for one storm: the earliest on-land row of an already sorted
track table, missing when the storm never touches land. -/
def firstLandfall (s : String) (tracks : List LRow) : Option LRow :=
  (tracks.filter (fun r => r.onLand)).find? (fun r => r.sid == s)

/-- One storms-CSV record of the landfall script. -/
structure LfStorm where
  sid : String
  start_time : Time
  end_time : Time
  start_year : Int
  max_wind : Rat
  n_track_points : Nat
  mean_lat : Rat
  mean_lon : Rat
  any_landfall : Bool
  first_landfall_time : Option Time
  first_landfall_lat : Option Rat
  first_landfall_lon : Option Rat
  first_landfall_wind : Option Rat
  first_landfall_nature : Option String
  peak_intensity : String
  landfall_intensity : String
deriving DecidableEq, Repr

/-- The label-assignment stage of the landfall script (peak_intensity from
max_wind, landfall_intensity from first_landfall_wind). -/
def assignLfLabels (s : LfStorm) : LfStorm :=
  { s with peak_intensity := intensityChain (some s.max_wind),
           landfall_intensity := intensityChain s.first_landfall_wind }

/-- groupby-SID aggregation of the landfall script for one storm id, with the
lf_first left join and the label assignments; none when the storm has no track
row. -/
def aggLfStorm (s : String) (tracks : List LRow) : Option LfStorm :=
  match tracks.filter (fun r => r.sid == s) with
  | [] => none
  | r :: rs =>
    some (assignLfLabels
      { sid := s
        start_time := minTimeFold r.time (rs.map (fun q => q.time))
        end_time := maxTimeFold r.time (rs.map (fun q => q.time))
        start_year := minIntFold r.time.year (rs.map (fun q => q.time.year))
        max_wind := maxRatFold r.wind (rs.map (fun q => q.wind))
        n_track_points := (r :: rs).length
        mean_lat := sumRat ((r :: rs).map (fun q => q.lat)) / ((r :: rs).length : Rat)
        mean_lon := sumRat ((r :: rs).map (fun q => q.lon180)) / ((r :: rs).length : Rat)
        any_landfall := (r :: rs).any (fun q => q.onLand)
        first_landfall_time := (firstLandfall s tracks).map (fun q => q.time)
        first_landfall_lat := (firstLandfall s tracks).map (fun q => q.lat)
        first_landfall_lon := (firstLandfall s tracks).map (fun q => q.lon180)
        first_landfall_wind := (firstLandfall s tracks).map (fun q => q.wind)
        first_landfall_nature := (firstLandfall s tracks).map (fun q => q.nature)
        peak_intensity := "TD"
        landfall_intensity := "TD" })

/-- sort_values key (start_year, SID) on landfall summary rows. -/
def lfStormLe (a b : LfStorm) : Bool :=
  if a.start_year = b.start_year then sidLe a.sid b.sid
  else decide (a.start_year ≤ b.start_year)

/-- The storms CSV content of the landfall script. -/
def lfStormsOut (geom : Geometry) (raw : List RawRow) : List LfStorm :=
  sortOrd lfStormLe
    ((groupSids ((lfTracksOut geom raw).map (fun r => r.sid))).filterMap
      (fun s => aggLfStorm s (lfTracksOut geom raw)))

/-! The climate-series merge (merge_era5_jsons_to_csv.py). Only the year key
and the column names matter to the merge contract, so a reshaped JSON document
is embedded as its column-name list plus its year column. -/

/-- One reshaped annual table: its columns (the year column first, then one
column per series) and its year values. -/
structure ClimateTable where
  cols : List String
  years : List Int
deriving DecidableEq, Repr

/-- The caller's fixed output column order, COLUMN_ORDER of the script. -/
def COLUMN_ORDER : List String :=
  ["year", "cdd", "r50mm", "r95ptot", "cwd", "rx1day", "rx5day", "pr",
   "prpercent", "r20mm"]

/-- One pandas inner merge on the year key: rows survive when their year also
appears on the right; the right table contributes its non-key columns after
the left table's columns. -/
def mergeOnYear (a b : ClimateTable) : ClimateTable :=
  { cols := a.cols ++ b.cols.filter (fun c => !(c == "year")),
    years := a.years.filter (fun y => decide (y ∈ b.years)) }

/-- The script's merge loop: start from the first table and fold the inner
merge over the remaining ones. -/
def mergeAll (first : ClimateTable) (rest : List ClimateTable) : ClimateTable :=
  rest.foldl mergeOnYear first

/-- Boolean integer order for the final sort_values on year. -/
def intLeB (a b : Int) : Bool := decide (a ≤ b)

/-- The whole merge script after loading: merge, sort by year, check that no
COLUMN_ORDER column is missing (raising — none — otherwise), then reorder the
columns to COLUMN_ORDER and write. -/
def runMergeScript (first : ClimateTable) (rest : List ClimateTable) :
    Option ClimateTable :=
  let merged := mergeAll first rest
  let sorted : ClimateTable := { cols := merged.cols, years := sortOrd intLeB merged.years }
  let missing := COLUMN_ORDER.filter (fun c => !(decide (c ∈ sorted.cols)))
  if missing = [] then some { cols := COLUMN_ORDER, years := sorted.years } else none

/-! CSV rendering, for the byte-level determinism property: every output
column of the embedded pipelines is serialized to a string. -/

/-- Render a rational exactly. -/
def ratCsv (q : Rat) : String :=
  toString q.num ++ "/" ++ toString q.den

/-- Render a timestamp. -/
def timeCsv (t : Time) : String :=
  toString t.year ++ "#" ++ toString t.sub

/-- Render an optional cell, empty when missing. -/
def optCsv (f : α → String) : Option α → String
  | none => ""
  | some a => f a

/-- Render one PAR track row. -/
def pRowCsv (r : PRow) : String :=
  r.sid ++ "," ++ timeCsv r.time ++ "," ++ ratCsv r.lat ++ "," ++ ratCsv r.lon ++
    "," ++ r.nature ++ "," ++ ratCsv r.wind ++ "," ++ toString r.inPar

/-- Render one PAR summary row. -/
def parStormCsv (s : ParStorm) : String :=
  s.sid ++ "," ++ timeCsv s.start_time ++ "," ++ timeCsv s.end_time ++ "," ++
    toString s.start_year ++ "," ++ ratCsv s.max_wind ++ "," ++
    toString s.n_track_points ++ "," ++ ratCsv s.mean_lat ++ "," ++
    ratCsv s.mean_lon ++ "," ++ optCsv ratCsv s.par_max_wind ++ "," ++
    s.peak_intensity ++ "," ++ s.par_peak_intensity

/-- Render one landfall track row. -/
def lRowCsv (r : LRow) : String :=
  r.sid ++ "," ++ timeCsv r.time ++ "," ++ ratCsv r.lat ++ "," ++ ratCsv r.lon ++
    "," ++ r.nature ++ "," ++ ratCsv r.wind ++ "," ++ ratCsv r.lon180 ++ "," ++
    toString r.onLand

/-- Render one landfall summary row. -/
def lfStormCsv (s : LfStorm) : String :=
  s.sid ++ "," ++ timeCsv s.start_time ++ "," ++ timeCsv s.end_time ++ "," ++
    toString s.start_year ++ "," ++ ratCsv s.max_wind ++ "," ++
    toString s.n_track_points ++ "," ++ ratCsv s.mean_lat ++ "," ++
    ratCsv s.mean_lon ++ "," ++ toString s.any_landfall ++ "," ++
    optCsv timeCsv s.first_landfall_time ++ "," ++
    optCsv ratCsv s.first_landfall_lat ++ "," ++
    optCsv ratCsv s.first_landfall_lon ++ "," ++
    optCsv ratCsv s.first_landfall_wind ++ "," ++
    optCsv (fun n => n) s.first_landfall_nature ++ "," ++
    s.peak_intensity ++ "," ++ s.landfall_intensity

/-- Join rendered rows into one file body. -/
def linesCsv (l : List String) : String :=
  l.foldl (fun acc s => acc ++ s ++ "\n") ""

/-- The pair of CSV file contents the PAR script writes. -/
def parCsvOutputs (raw : List RawRow) : String × String :=
  (linesCsv ((parTracksOut raw).map pRowCsv),
   linesCsv ((parStormsOut raw).map parStormCsv))

/-- The pair of CSV file contents the landfall script writes. -/
def lfCsvOutputs (geom : Geometry) (raw : List RawRow) : String × String :=
  (linesCsv ((lfTracksOut geom raw).map lRowCsv),
   linesCsv ((lfStormsOut geom raw).map lfStormCsv))

/-! Concrete inputs used by the scenario theorems and witnesses. -/

/-- Synthetic end-to-end input: one storm with three observations, two of them
sharing (id, time, lat, lon) but with different winds, and one inside the PAR
polygon with wind 70. -/
def scenarioRaw : List RawRow :=
  [⟨some "S1", some ⟨2000, 1⟩, some 30, some 140, "TS", some 30⟩,
   ⟨some "S1", some ⟨2000, 1⟩, some 30, some 140, "TS", some 45⟩,
   ⟨some "S1", some ⟨2000, 2⟩, some 15, some 125, "TS", some 70⟩]

/-- The expected detail rows of the scenario: the first-occurrence winner of
the duplicate pair, then the in-PAR observation. -/
def scenarioTrack1 : PRow :=
  ⟨"S1", ⟨2000, 1⟩, 30, 140, "TS", 30, false⟩

/-- The in-PAR observation of the scenario. -/
def scenarioTrack2 : PRow :=
  ⟨"S1", ⟨2000, 2⟩, 15, 125, "TS", 70, true⟩

/-- A summary record whose scoped wind is missing, exercising the label
assignment on a post-join miss. -/
def stormNoParWind : ParStorm :=
  ⟨"X", ⟨2000, 0⟩, ⟨2000, 0⟩, 2000, 80, 1, 0, 0, none, "", ""⟩

/-- A cleaned row whose raw longitude is stored in the 0..360 convention. -/
def rowLon300 : Row :=
  ⟨"X", ⟨2000, 0⟩, 20, 300, "TS", 50⟩

/-- First synthetic annual table: years 2000..2002, three index columns. -/
def climate1 : ClimateTable := ⟨["year", "cdd", "r50mm", "r95ptot"], [2000, 2001, 2002]⟩

/-- Second synthetic annual table: years 2001..2003. -/
def climate2 : ClimateTable := ⟨["year", "cwd", "rx1day", "rx5day"], [2001, 2002, 2003]⟩

/-- Third synthetic annual table: years 2000..2003. -/
def climate3 : ClimateTable := ⟨["year", "pr", "prpercent", "r20mm"], [2000, 2001, 2002, 2003]⟩

/-- A reshaped table missing every index column, for the failure direction of
the merge contract. -/
def climateYearOnly : ClimateTable := ⟨["year"], [2000]⟩

/-- A toy landmass geometry: one square polygon. -/
def toyGeom : Geometry := [[(0, 0), (10, 0), (10, 10), (0, 10)]]

/-- A raw observation of a non-tropical (extratropical) system on toy land. -/
def rawNonTropical : RawRow :=
  ⟨some "L1", some ⟨2000, 1⟩, some 5, some 5, "ET", some 80⟩

/-- A raw tropical-storm observation, for the PAR nature-filter witness. -/
def rawTropical : RawRow :=
  ⟨some "A", some ⟨2000, 0⟩, some 10, some 120, "TS", some 40⟩

/-- The cleaned form of the tropical witness observation. -/
def rowTropical : Row :=
  ⟨"A", ⟨2000, 0⟩, 10, 120, "TS", 40⟩

/-! Helper lemmas: membership through the sorting, uniqueness and
deduplication primitives. -/

theorem mem_insertOrd (le : α → α → Bool) (x a : α) (l : List α) :
    a ∈ insertOrd le x l ↔ a = x ∨ a ∈ l := by
  induction l with
  | nil => simp [insertOrd]
  | cons b bs ih =>
    simp only [insertOrd]
    split_ifs with h
    · simp [List.mem_cons]
    · simp only [List.mem_cons, ih]
      tauto

theorem mem_sortOrd (le : α → α → Bool) (a : α) (l : List α) :
    a ∈ sortOrd le l ↔ a ∈ l := by
  induction l with
  | nil => simp [sortOrd]
  | cons b bs ih => simp [sortOrd, mem_insertOrd, ih]

theorem mem_firstUniqueGo [DecidableEq α] (seen : List α) (l : List α) (a : α) :
    a ∈ firstUniqueGo seen l ↔ a ∈ l ∧ a ∉ seen := by
  induction l generalizing seen with
  | nil => simp [firstUniqueGo]
  | cons x xs ih =>
    simp only [firstUniqueGo]
    split_ifs with h
    · rw [ih]
      simp only [List.mem_cons]
      constructor
      · rintro ⟨hm, hs⟩
        exact ⟨Or.inr hm, hs⟩
      · rintro ⟨hm | hm, hs⟩
        · exact absurd (hm ▸ h) hs
        · exact ⟨hm, hs⟩
    · simp only [List.mem_cons, ih, List.mem_cons]
      constructor
      · rintro (rfl | ⟨hm, hs⟩)
        · exact ⟨Or.inl rfl, h⟩
        · exact ⟨Or.inr hm, fun hseen => hs (Or.inr hseen)⟩
      · rintro ⟨hm | hm, hs⟩
        · exact Or.inl hm
        · by_cases hax : a = x
          · exact Or.inl hax
          · refine Or.inr ⟨hm, fun hc => ?_⟩
            rcases hc with hc | hc
            · exact hax hc
            · exact hs hc

theorem mem_firstUnique [DecidableEq α] (l : List α) (a : α) :
    a ∈ firstUnique l ↔ a ∈ l := by
  simp [firstUnique, mem_firstUniqueGo]

theorem mem_of_mem_dedupByGo [DecidableEq κ] (key : α → κ) (seen : List κ)
    (l : List α) (a : α) (h : a ∈ dedupByGo key seen l) : a ∈ l := by
  induction l generalizing seen with
  | nil => simp [dedupByGo] at h
  | cons x xs ih =>
    by_cases hx : key x ∈ seen
    · simp only [dedupByGo, hx, if_true] at h
      exact List.mem_cons_of_mem _ (ih _ h)
    · simp only [dedupByGo, hx, if_false, List.mem_cons] at h
      rcases h with h | h
      · exact List.mem_cons.mpr (Or.inl h)
      · exact List.mem_cons_of_mem _ (ih _ h)

theorem dedupByGo_covers [DecidableEq κ] (key : α → κ) (seen : List κ)
    (l : List α) (a : α) (h : a ∈ l) :
    (∃ b ∈ dedupByGo key seen l, key b = key a) ∨ key a ∈ seen := by
  induction l generalizing seen with
  | nil => cases h
  | cons x xs ih =>
    by_cases hx : key x ∈ seen
    · simp only [dedupByGo, hx, if_true]
      rcases List.mem_cons.mp h with he | h
      · exact Or.inr (he ▸ hx)
      · exact ih _ h
    · simp only [dedupByGo, hx, if_false]
      rcases List.mem_cons.mp h with he | h
      · exact Or.inl ⟨x, List.mem_cons_self x _, by rw [he]⟩
      · rcases ih (key x :: seen) h with ⟨b, hb, hbk⟩ | hs
        · exact Or.inl ⟨b, List.mem_cons_of_mem _ hb, hbk⟩
        · rcases List.mem_cons.mp hs with hk | hk
          · exact Or.inl ⟨x, List.mem_cons_self x _, hk.symm⟩
          · exact Or.inr hk

theorem dedupBy_covers [DecidableEq κ] (key : α → κ) (l : List α) (a : α)
    (h : a ∈ l) : ∃ b ∈ dedupBy key l, key b = key a := by
  rcases dedupByGo_covers key [] l a h with h' | h'
  · exact h'
  · cases h'

theorem mem_of_mem_dedupBy [DecidableEq κ] (key : α → κ) (l : List α) (a : α)
    (h : a ∈ dedupBy key l) : a ∈ l :=
  mem_of_mem_dedupByGo key [] l a h

theorem mem_groupSids (sids : List String) (s : String) :
    s ∈ groupSids sids ↔ s ∈ sids := by
  simp [groupSids, mem_sortOrd, mem_firstUnique]

/-! Helper lemmas on the per-storm aggregation. -/

theorem aggParStorm_sid (s : String) (tracks : List PRow) (st : ParStorm)
    (h : aggParStorm s tracks = some st) : st.sid = s := by
  unfold aggParStorm at h
  cases hf : tracks.filter (fun r => r.sid == s) with
  | nil => rw [hf] at h; cases h
  | cons r rs => rw [hf] at h; cases h; rfl

theorem aggParStorm_some_iff (s : String) (tracks : List PRow) :
    (∃ st, aggParStorm s tracks = some st) ↔ ∃ r ∈ tracks, r.sid = s := by
  unfold aggParStorm
  cases hf : tracks.filter (fun r => r.sid == s) with
  | nil =>
    simp only [hf]
    constructor
    · rintro ⟨st, h⟩
      cases h
    · rintro ⟨r, hr, hs⟩
      have := List.filter_eq_nil_iff.mp hf r hr
      simp [hs] at this
  | cons r rs =>
    simp only [hf]
    constructor
    · intro _
      have hrmem : r ∈ tracks.filter (fun q => q.sid == s) := by
        rw [hf]
        exact List.mem_cons_self r rs
      have hm := List.mem_filter.mp hrmem
      exact ⟨r, hm.1, by simpa using hm.2⟩
    · intro _
      exact ⟨_, rfl⟩

theorem aggLfStorm_sid (s : String) (tracks : List LRow) (st : LfStorm)
    (h : aggLfStorm s tracks = some st) : st.sid = s := by
  unfold aggLfStorm at h
  cases hf : tracks.filter (fun r => r.sid == s) with
  | nil => rw [hf] at h; cases h
  | cons r rs => rw [hf] at h; cases h; rfl

theorem aggLfStorm_some_iff (s : String) (tracks : List LRow) :
    (∃ st, aggLfStorm s tracks = some st) ↔ ∃ r ∈ tracks, r.sid = s := by
  unfold aggLfStorm
  cases hf : tracks.filter (fun r => r.sid == s) with
  | nil =>
    simp only [hf]
    constructor
    · rintro ⟨st, h⟩
      cases h
    · rintro ⟨r, hr, hs⟩
      have := List.filter_eq_nil_iff.mp hf r hr
      simp [hs] at this
  | cons r rs =>
    simp only [hf]
    constructor
    · intro _
      have hrmem : r ∈ tracks.filter (fun q => q.sid == s) := by
        rw [hf]
        exact List.mem_cons_self r rs
      have hm := List.mem_filter.mp hrmem
      exact ⟨r, hm.1, by simpa using hm.2⟩
    · intro _
      exact ⟨_, rfl⟩

theorem parStorms_sid_mem (raw : List RawRow) (s : String) :
    s ∈ (parStormsOut raw).map (fun st => st.sid) ↔
      ∃ r ∈ parTracksOut raw, r.sid = s := by
  unfold parStormsOut
  constructor
  · intro h
    rcases List.mem_map.mp h with ⟨st, hst, rfl⟩
    have hst' := (mem_sortOrd _ _ _).mp hst
    rcases List.mem_filterMap.mp hst' with ⟨x, hx, hagg⟩
    have hsid := aggParStorm_sid x _ _ hagg
    have hx' := (mem_groupSids _ _).mp hx
    rcases List.mem_map.mp hx' with ⟨r, hr, hrs⟩
    exact ⟨r, hr, by rw [hrs, hsid]⟩
  · rintro ⟨r, hr, rfl⟩
    have hx : r.sid ∈ groupSids ((parTracksOut raw).map (fun q => q.sid)) :=
      (mem_groupSids _ _).mpr (List.mem_map.mpr ⟨r, hr, rfl⟩)
    rcases (aggParStorm_some_iff r.sid (parTracksOut raw)).mpr ⟨r, hr, rfl⟩ with ⟨st, hst⟩
    refine List.mem_map.mpr ⟨st, ?_, aggParStorm_sid _ _ _ hst⟩
    exact (mem_sortOrd _ _ _).mpr (List.mem_filterMap.mpr ⟨r.sid, hx, hst⟩)

theorem lfStorms_sid_mem (geom : Geometry) (raw : List RawRow) (s : String) :
    s ∈ (lfStormsOut geom raw).map (fun st => st.sid) ↔
      ∃ r ∈ lfTracksOut geom raw, r.sid = s := by
  unfold lfStormsOut
  constructor
  · intro h
    rcases List.mem_map.mp h with ⟨st, hst, rfl⟩
    have hst' := (mem_sortOrd _ _ _).mp hst
    rcases List.mem_filterMap.mp hst' with ⟨x, hx, hagg⟩
    have hsid := aggLfStorm_sid x _ _ hagg
    have hx' := (mem_groupSids _ _).mp hx
    rcases List.mem_map.mp hx' with ⟨r, hr, hrs⟩
    exact ⟨r, hr, by rw [hrs, hsid]⟩
  · rintro ⟨r, hr, rfl⟩
    have hx : r.sid ∈ groupSids ((lfTracksOut geom raw).map (fun q => q.sid)) :=
      (mem_groupSids _ _).mpr (List.mem_map.mpr ⟨r, hr, rfl⟩)
    rcases (aggLfStorm_some_iff r.sid (lfTracksOut geom raw)).mpr ⟨r, hr, rfl⟩ with ⟨st, hst⟩
    refine List.mem_map.mpr ⟨st, ?_, aggLfStorm_sid _ _ _ hst⟩
    exact (mem_sortOrd _ _ _).mpr (List.mem_filterMap.mpr ⟨r.sid, hx, hst⟩)

/-! Helper lemmas on the intensity classifier. -/

theorem intensityChain_of_lt34 (w : Rat) (h : w < 34) : intensityOfWind w = "TD" := by
  unfold intensityOfWind intensityChain
  split_ifs with h130 h64 h34 <;>
    simp only [windGeB, decide_eq_true_iff] at * <;> first | rfl | linarith

theorem intensityChain_of_34_64 (w : Rat) (h1 : 34 ≤ w) (h2 : w < 64) :
    intensityOfWind w = "TS" := by
  unfold intensityOfWind intensityChain
  split_ifs with h130 h64 h34 <;>
    simp only [windGeB, decide_eq_true_iff] at * <;> first | rfl | linarith

theorem intensityChain_of_64_130 (w : Rat) (h1 : 64 ≤ w) (h2 : w < 130) :
    intensityOfWind w = "TY" := by
  unfold intensityOfWind intensityChain
  split_ifs with h130 h64 h34 <;>
    simp only [windGeB, decide_eq_true_iff] at * <;> first | rfl | linarith

theorem intensityChain_of_130 (w : Rat) (h : 130 ≤ w) : intensityOfWind w = "STY" := by
  unfold intensityOfWind intensityChain
  split_ifs with h130 h64 h34 <;>
    simp only [windGeB, decide_eq_true_iff] at * <;> first | rfl | linarith

theorem intensityRank_formula (w : Rat) :
    intensityRank (intensityOfWind w) =
      if 130 ≤ w then 3 else if 64 ≤ w then 2 else if 34 ≤ w then 1 else 0 := by
  rcases le_or_lt 130 w with h130 | h130
  · rw [intensityChain_of_130 w h130, if_pos h130]
    rfl
  · rcases le_or_lt 64 w with h64 | h64
    · rw [intensityChain_of_64_130 w h64 h130, if_neg (not_le.mpr h130), if_pos h64]
      rfl
    · rcases le_or_lt 34 w with h34 | h34
      · rw [intensityChain_of_34_64 w h34 h64, if_neg (not_le.mpr h130),
          if_neg (not_le.mpr h64), if_pos h34]
        rfl
      · rw [intensityChain_of_lt34 w h34, if_neg (not_le.mpr h130),
          if_neg (not_le.mpr h64), if_neg (not_le.mpr h34)]
        rfl

theorem intensityRank_mono (w v : Rat) (h : w ≤ v) :
    intensityRank (intensityOfWind w) ≤ intensityRank (intensityOfWind v) := by
  rw [intensityRank_formula, intensityRank_formula]
  split_ifs <;> first | (exfalso; linarith) | norm_num

/-! Helper lemmas: the landfall retention computation never reads the NATURE
column, so replacing every nature value leaves the retained-id set unchanged. -/

theorem toValidRow_nature (rr : RawRow) (n : String) :
    toValidRow { rr with nature := n } =
      (toValidRow rr).map (fun r => { r with nature := n }) := by
  rcases rr with ⟨s, t, la, lo, nat, w⟩
  cases s <;> cases t <;> cases la <;> cases lo <;> cases w <;> rfl

theorem dropInvalid_nature (raw : List RawRow) (n : String) :
    dropInvalid (raw.map (fun rr => { rr with nature := n })) =
      (dropInvalid raw).map (fun r => { r with nature := n }) := by
  induction raw with
  | nil => rfl
  | cons rr rest ih =>
    simp only [List.map_cons, dropInvalid, List.filterMap_cons] at *
    rw [toValidRow_nature]
    cases toValidRow rr with
    | none => simpa using ih
    | some r => simpa using ih

theorem lfAllRows_nature (geom : Geometry) (raw : List RawRow) (n : String) :
    lfAllRows geom (raw.map (fun rr => { rr with nature := n })) =
      (lfAllRows geom raw).map (fun r => { r with nature := n }) := by
  unfold lfAllRows lfCleanRows
  rw [dropInvalid_nature, List.filter_map, List.map_map, List.map_map]
  have h1 : (yearInRange ∘ fun r : Row => { r with nature := n }) = yearInRange := rfl
  have h2 : (mkLRow geom ∘ fun r : Row => { r with nature := n }) =
      ((fun r : LRow => { r with nature := n }) ∘ mkLRow geom) := rfl
  rw [h1, h2]

theorem lfStormIds_nature (geom : Geometry) (raw : List RawRow) (n : String) :
    lfStormIds geom (raw.map (fun rr => { rr with nature := n })) =
      lfStormIds geom raw := by
  unfold lfStormIds
  rw [lfAllRows_nature, List.filter_map, List.map_map]
  have h1 : ((fun r : LRow => r.onLand) ∘ fun r : LRow => { r with nature := n }) =
      (fun r : LRow => r.onLand) := rfl
  have h2 : ((fun r : LRow => r.sid) ∘ fun r : LRow => { r with nature := n }) =
      (fun r : LRow => r.sid) := rfl
  rw [h1, h2]

/-! Claim theorems. -/

/-- C1 counterexample. The claim says a summary row whose scoped wind value is
missing after the join carries an unknown/missing scoped intensity label,
never the lowest class TD. On a record whose par_max_wind is missing, the
script's label-assignment stage in fact produces exactly "TD": every
threshold mask is false on a missing wind, so the pre-assigned default "TD"
survives, and nothing replaces it with an unknown marker. -/
theorem C1_counterexample :
    stormNoParWind.par_max_wind = none ∧
      (assignParLabels stormNoParWind).par_peak_intensity = "TD" :=
  ⟨rfl, rfl⟩

/-- C1 amended: a post-join missing scoped wind value is indeed left missing
in the underlying wind field (never defaulted to zero), in both pipelines, but
the corresponding scoped intensity label defaults to the lowest class "TD"
rather than to an unknown/missing marker. -/
theorem C1_missing_scoped_wind :
    (∀ (s : String) (tracks : List PRow),
        (∀ r ∈ tracks, r.sid = s → r.inPar = false) → parMaxWind s tracks = none) ∧
    (∀ (s : String) (tracks : List LRow),
        (∀ r ∈ tracks, r.onLand = false) → firstLandfall s tracks = none) ∧
    intensityChain none = "TD" ∧
    (∀ st : ParStorm, (assignParLabels st).par_max_wind = st.par_max_wind ∧
        (assignParLabels st).par_peak_intensity = intensityChain st.par_max_wind) ∧
    (∀ st : LfStorm, (assignLfLabels st).first_landfall_wind = st.first_landfall_wind ∧
        (assignLfLabels st).landfall_intensity = intensityChain st.first_landfall_wind) := by
  refine ⟨?_, ?_, rfl, fun _st => ⟨rfl, rfl⟩, fun _st => ⟨rfl, rfl⟩⟩
  · intro s tracks h
    unfold parMaxWind
    have hf : tracks.filter (fun r => r.sid == s && r.inPar) = [] := by
      refine List.filter_eq_nil_iff.mpr fun r hr hb => ?_
      rw [Bool.and_eq_true, beq_iff_eq] at hb
      rw [h r hr hb.1] at hb
      exact Bool.false_ne_true hb.2
    rw [hf]
    rfl
  · intro s tracks h
    unfold firstLandfall
    have hf : tracks.filter (fun r => r.onLand) = [] :=
      List.filter_eq_nil_iff.mpr fun r hr hb => Bool.false_ne_true ((h r hr) ▸ hb)
    rw [hf]
    rfl

/-- C1 witness: the amended statement at concrete inputs — with no in-region
row the scoped maximum is missing, and the chain labels a missing wind TD. -/
theorem C1_missing_scoped_wind_witness :
    parMaxWind "X" [] = none ∧ firstLandfall "X" [] = none :=
  ⟨C1_missing_scoped_wind.1 "X" [] (fun r hr => absurd hr (List.not_mem_nil r)),
   C1_missing_scoped_wind.2.1 "X" [] (fun r hr => absurd hr (List.not_mem_nil r))⟩

/-- C2: the intensity classifier maps a present wind w to TD below 34 knots,
TS on 34..64, TY on 64..130 and STY from 130 up; it is non-decreasing in the
wind, and both scripts' label stages apply this same chain to the lifetime,
regional and landfall scoped winds. -/
theorem C2_intensity_classifier :
    (∀ w : Rat, w < 34 → intensityOfWind w = "TD") ∧
    (∀ w : Rat, 34 ≤ w → w < 64 → intensityOfWind w = "TS") ∧
    (∀ w : Rat, 64 ≤ w → w < 130 → intensityOfWind w = "TY") ∧
    (∀ w : Rat, 130 ≤ w → intensityOfWind w = "STY") ∧
    (∀ w v : Rat, w ≤ v →
        intensityRank (intensityOfWind w) ≤ intensityRank (intensityOfWind v)) ∧
    (∀ st : ParStorm, (assignParLabels st).peak_intensity = intensityOfWind st.max_wind ∧
        (assignParLabels st).par_peak_intensity = intensityChain st.par_max_wind) ∧
    (∀ st : LfStorm, (assignLfLabels st).peak_intensity = intensityOfWind st.max_wind ∧
        (assignLfLabels st).landfall_intensity = intensityChain st.first_landfall_wind) :=
  ⟨intensityChain_of_lt34, intensityChain_of_34_64, intensityChain_of_64_130,
   intensityChain_of_130, intensityRank_mono,
   fun _st => ⟨rfl, rfl⟩, fun _st => ⟨rfl, rfl⟩⟩

/-- C2 witness: the classifier evaluated at both sides of each breakpoint. -/
theorem C2_intensity_classifier_witness :
    intensityOfWind 33 = "TD" ∧ intensityOfWind 34 = "TS" ∧
    intensityOfWind 63 = "TS" ∧ intensityOfWind 64 = "TY" ∧
    intensityOfWind 129 = "TY" ∧ intensityOfWind 130 = "STY" ∧
    intensityRank (intensityOfWind 50) ≤ intensityRank (intensityOfWind 129) :=
  ⟨C2_intensity_classifier.1 33 (by norm_num),
   C2_intensity_classifier.2.1 34 (by norm_num) (by norm_num),
   C2_intensity_classifier.2.1 63 (by norm_num) (by norm_num),
   C2_intensity_classifier.2.2.1 64 (by norm_num) (by norm_num),
   C2_intensity_classifier.2.2.1 129 (by norm_num) (by norm_num),
   C2_intensity_classifier.2.2.2.1 130 (by norm_num),
   C2_intensity_classifier.2.2.2.2.1 50 129 (by norm_num)⟩

/-- C7 counterexample. The claim says every containment test of the cleaning
stage receives longitudes normalized to -180..180 (values above 180 mapped to
value minus 360). The PAR script constructs its test points from the raw LON
column with no normalization: on a row with longitude 300 the PAR test
receives 300, not the normalized -60. -/
theorem C7_counterexample :
    (parTestPoint rowLon300).1 = 300 ∧ ensureLon180 rowLon300.lon = -60 ∧
      (parTestPoint rowLon300).1 ≠ ensureLon180 rowLon300.lon := by
  have h : ensureLon180 rowLon300.lon = -60 := by
    show ensureLon180 300 = -60
    rw [ensureLon180, if_pos (by norm_num)]
    norm_num
  refine ⟨rfl, h, ?_⟩
  rw [h]
  show (300 : Rat) ≠ -60
  norm_num

/-- C7 amended: the landfall pipeline normalizes every longitude (values
above 180 wrapped by -360) before its containment test, while the PAR
pipeline passes the raw longitude to its containment test unchanged. -/
theorem C7_longitude_normalization :
    ∀ r : Row, (lfTestPoint r).1 = ensureLon180 r.lon ∧ (parTestPoint r).1 = r.lon :=
  fun _r => ⟨rfl, rfl⟩

/-- C7 witness: the amended statement at the 0..360-convention row. -/
theorem C7_longitude_normalization_witness :
    (lfTestPoint rowLon300).1 = ensureLon180 rowLon300.lon ∧
      (parTestPoint rowLon300).1 = rowLon300.lon :=
  C7_longitude_normalization rowLon300

/-- C9: the embedded pipelines are pure functions of the raw table and the
boundary geometry, so two runs on identical raw input and identical geometry
render byte-identical detail and summary CSV contents. -/
theorem C9_determinism (raw1 raw2 : List RawRow) (geom1 geom2 : Geometry)
    (h1 : raw1 = raw2) (h2 : geom1 = geom2) :
    parCsvOutputs raw1 = parCsvOutputs raw2 ∧
      lfCsvOutputs geom1 raw1 = lfCsvOutputs geom2 raw2 := by
  subst h1
  subst h2
  exact ⟨rfl, rfl⟩

/-- C9 witness: two runs on the same concrete scenario input coincide. -/
theorem C9_determinism_witness :
    parCsvOutputs scenarioRaw = parCsvOutputs scenarioRaw ∧
      lfCsvOutputs toyGeom scenarioRaw = lfCsvOutputs toyGeom scenarioRaw :=
  C9_determinism scenarioRaw scenarioRaw toyGeom toyGeom rfl rfl

/-- C3: the climate merge is an inner join on year — a year survives the fold
of pairwise inner merges exactly when it lies in every input table; any table
the script outputs carries exactly the declared column order; and on the
three synthetic inputs covering 2000..2002, 2001..2003 and 2000..2003 with
disjoint index names, the output holds exactly the years 2001 and 2002 with
all index columns in the declared order. -/
theorem C3_climate_inner_join :
    (∀ (t0 : ClimateTable) (rest : List ClimateTable) (y : Int),
        y ∈ (mergeAll t0 rest).years ↔
          (y ∈ t0.years ∧ ∀ t ∈ rest, y ∈ t.years)) ∧
    (∀ (t0 : ClimateTable) (rest : List ClimateTable) (m : ClimateTable),
        runMergeScript t0 rest = some m → m.cols = COLUMN_ORDER) ∧
    runMergeScript climate1 [climate2, climate3] =
      some { cols := COLUMN_ORDER, years := [2001, 2002] } := by
  refine ⟨?_, ?_, ?_⟩
  · intro t0 rest
    induction rest generalizing t0 with
    | nil =>
      intro y
      simp [mergeAll]
    | cons t ts ih =>
      intro y
      have hstep : mergeAll t0 (t :: ts) = mergeAll (mergeOnYear t0 t) ts := rfl
      rw [hstep, ih (mergeOnYear t0 t) y]
      simp only [mergeOnYear, List.mem_filter, decide_eq_true_iff, List.forall_mem_cons]
      tauto
  · intro t0 rest m h
    simp only [runMergeScript] at h
    split at h
    · cases h
      rfl
    · cases h
  · with_unfolding_all rfl

/-- C3 witness: the column-order conjunct applied at the synthetic scenario,
with its hypothesis discharged by the scenario conjunct itself. -/
theorem C3_climate_inner_join_witness :
    ({ cols := COLUMN_ORDER, years := [2001, 2002] } : ClimateTable).cols =
      COLUMN_ORDER :=
  C3_climate_inner_join.2.1 climate1 [climate2, climate3] _
    C3_climate_inner_join.2.2

/-- C4: the merge script raises (models as none, writing nothing) exactly when
some column of the declared order is absent after the join; when every
declared column is present it returns the output table. -/
theorem C4_merge_missing_column (t0 : ClimateTable) (rest : List ClimateTable) :
    runMergeScript t0 rest = none ↔
      ∃ c ∈ COLUMN_ORDER, c ∉ (mergeAll t0 rest).cols := by
  have hconv : ∀ c : String,
      ((!decide (c ∈ (mergeAll t0 rest).cols)) = true) ↔
        c ∉ (mergeAll t0 rest).cols := by
    intro c
    simp [Bool.not_eq_true', decide_eq_false_iff_not]
  simp only [runMergeScript]
  split_ifs with hc
  · constructor
    · intro h
      exact h.elim
    · rintro ⟨c, hcm, hcn⟩
      have h2 := List.filter_eq_nil_iff.mp hc c hcm
      rw [hconv c] at h2
      exact absurd hcn h2
  · constructor
    · intro _
      rcases List.exists_mem_of_ne_nil _ hc with ⟨c, hcmem⟩
      have h2 := List.mem_filter.mp hcmem
      exact ⟨c, h2.1, (hconv c).mp h2.2⟩
    · intro _
      rfl

/-- C4 witness: on a table providing only the year column, the script raises;
the missing-column direction is discharged with the concrete column cdd. -/
theorem C4_merge_missing_column_witness :
    runMergeScript climateYearOnly [] = none :=
  (C4_merge_missing_column climateYearOnly []).mpr
    ⟨"cdd", by simp [COLUMN_ORDER], by simp [mergeAll, climateYearOnly]⟩

/-- C5: for either pipeline, an entity id appears among the summary rows
exactly when some detail row carries it — referential completeness between
the two outputs of one run, in both directions. -/
theorem C5_referential_completeness (raw : List RawRow) (geom : Geometry)
    (s : String) :
    (s ∈ (parStormsOut raw).map (fun st => st.sid) ↔
        ∃ r ∈ parTracksOut raw, r.sid = s) ∧
    (s ∈ (lfStormsOut geom raw).map (fun st => st.sid) ↔
        ∃ r ∈ lfTracksOut geom raw, r.sid = s) :=
  ⟨parStorms_sid_mem raw s, lfStorms_sid_mem geom raw s⟩

/-- C5 witness: the completeness statement instantiated on the concrete
scenario run and its storm id. -/
theorem C5_referential_completeness_witness :
    ("S1" ∈ (parStormsOut scenarioRaw).map (fun st => st.sid) ↔
        ∃ r ∈ parTracksOut scenarioRaw, r.sid = "S1") ∧
    ("S1" ∈ (lfStormsOut toyGeom scenarioRaw).map (fun st => st.sid) ↔
        ∃ r ∈ lfTracksOut toyGeom scenarioRaw, r.sid = "S1") :=
  C5_referential_completeness scenarioRaw toyGeom "S1"

set_option maxRecDepth 100000 in
/-- C6: on the synthetic three-observation input, the PAR pipeline retains the
entity, outputs exactly two detail rows — the first-occurrence winner of the
duplicate pair (wind 30) and the in-PAR observation — and exactly one summary
row whose lifetime peak label is TY (typhoon). -/
theorem C6_end_to_end_scenario :
    parStormIds scenarioRaw = ["S1"] ∧
    parTracksOut scenarioRaw = [scenarioTrack1, scenarioTrack2] ∧
    (parTracksOut scenarioRaw).length = 2 ∧
    (parStormsOut scenarioRaw).length = 1 ∧
    (parStormsOut scenarioRaw).map (fun st => st.peak_intensity) = ["TY"] := by
  refine ⟨?_, ?_, ?_, ?_, ?_⟩ <;> with_unfolding_all rfl

/-- C8: membership in the pre-deduplication selection of either pipeline
depends only on the entity being retained — never on the row's own containment
flag — every selected row survives to the written detail table up to the
documented deduplication key, and every written row is a cleaned row of a
retained entity. -/
theorem C8_full_track_history (raw : List RawRow) (geom : Geometry) :
    (∀ r ∈ parAllRows raw, (r ∈ parSelected raw ↔ r.sid ∈ parStormIds raw)) ∧
    (∀ r ∈ parSelected raw, ∃ q ∈ parTracksOut raw, pKey q = pKey r) ∧
    (∀ r ∈ parTracksOut raw, r ∈ parAllRows raw ∧ r.sid ∈ parStormIds raw) ∧
    (∀ r ∈ lfAllRows geom raw,
        (r ∈ lfSelected geom raw ↔ r.sid ∈ lfStormIds geom raw)) ∧
    (∀ r ∈ lfSelected geom raw, ∃ q ∈ lfTracksOut geom raw, lKey q = lKey r) ∧
    (∀ r ∈ lfTracksOut geom raw,
        r ∈ lfAllRows geom raw ∧ r.sid ∈ lfStormIds geom raw) := by
  refine ⟨?_, ?_, ?_, ?_, ?_, ?_⟩
  · intro r hr
    unfold parSelected
    rw [List.mem_filter]
    constructor
    · rintro ⟨-, h⟩
      exact of_decide_eq_true h
    · intro h
      exact ⟨hr, decide_eq_true h⟩
  · intro r hr
    rcases dedupBy_covers pKey (parSelected raw) r hr with ⟨q, hq, hk⟩
    exact ⟨q, (mem_sortOrd pTrackLe q _).mpr hq, hk⟩
  · intro r hr
    have h1 := mem_of_mem_dedupBy pKey (parSelected raw) r
      ((mem_sortOrd pTrackLe r _).mp hr)
    have h2 := List.mem_filter.mp h1
    exact ⟨h2.1, of_decide_eq_true h2.2⟩
  · intro r hr
    unfold lfSelected
    rw [List.mem_filter]
    constructor
    · rintro ⟨-, h⟩
      exact of_decide_eq_true h
    · intro h
      exact ⟨hr, decide_eq_true h⟩
  · intro r hr
    rcases dedupBy_covers lKey (lfSelected geom raw) r hr with ⟨q, hq, hk⟩
    exact ⟨q, (mem_sortOrd lTrackLe q _).mpr hq, hk⟩
  · intro r hr
    have h1 := mem_of_mem_dedupBy lKey (lfSelected geom raw) r
      ((mem_sortOrd lTrackLe r _).mp hr)
    have h2 := List.mem_filter.mp h1
    exact ⟨h2.1, of_decide_eq_true h2.2⟩

set_option maxRecDepth 100000 in
/-- C8 witness: the selection criterion evaluated on a concrete out-of-polygon
row of the retained scenario storm. -/
theorem C8_full_track_history_witness :
    scenarioTrack1 ∈ parSelected scenarioRaw ↔
      scenarioTrack1.sid ∈ parStormIds scenarioRaw :=
  (C8_full_track_history scenarioRaw toyGeom).1 scenarioTrack1
    (by with_unfolding_all decide)

set_option maxRecDepth 100000 in
/-- C10: the landfall retention computation never reads the NATURE column —
replacing every category code leaves the retained-id set unchanged, and a
concrete non-tropical (ET) system on land is retained — while the PAR pipeline
keeps only rows whose category lies in the tropical set KEEP_NATURE. -/
theorem C10_no_nature_filter_in_landfall :
    (∀ (geom : Geometry) (raw : List RawRow) (n : String),
        lfStormIds geom (raw.map (fun rr => { rr with nature := n })) =
          lfStormIds geom raw) ∧
    (∀ raw : List RawRow, ∀ r ∈ parCleanRows raw, r.nature ∈ KEEP_NATURE) ∧
    ("L1" ∈ lfStormIds toyGeom [rawNonTropical] ∧ "ET" ∉ KEEP_NATURE) := by
  refine ⟨lfStormIds_nature, ?_, by with_unfolding_all decide⟩
  intro raw r hr
  unfold parCleanRows at hr
  have h2 := List.mem_filter.mp hr
  exact of_decide_eq_true h2.2

set_option maxRecDepth 100000 in
/-- C10 witness: nature-independence applied at a concrete relabeling, and the
PAR nature restriction at a concrete tropical row. -/
theorem C10_no_nature_filter_witness :
    lfStormIds toyGeom ([rawNonTropical].map (fun rr => { rr with nature := "XX" })) =
        lfStormIds toyGeom [rawNonTropical] ∧
      rowTropical.nature ∈ KEEP_NATURE :=
  ⟨C10_no_nature_filter_in_landfall.1 toyGeom [rawNonTropical] "XX",
   C10_no_nature_filter_in_landfall.2.1 [rawTropical] rowTropical
     (by with_unfolding_all decide)⟩

end IOS
